import Mathlib

/-!
Verification of the L298N H-bridge motor driver (`src/lib.rs`).

The driver owns two digital-output capabilities (`dir1`, `dir2`), one PWM
capability (`enable`), and a `throttle : u16` field.  All three capabilities
are constrained to `Error = Infallible`, so every fallible call is typed in
`Except Infallible`.  We embed the driver as a state machine: `DriverState`
holds the observable hardware state (last level written to each direction
pin, last duty written to the PWM, the PWM capability's native maximum duty)
together with the driver's `throttle` field and a ghost trace of hardware
events, newest first.  Machine integers are modelled as `Nat` with explicit
`% 2^32` / `% 2^16` where the Rust code computes in `u32` and casts to `u16`.
-/

/-- Rust's `core::convert::Infallible`: an uninhabited error type. -/
abbrev Infallible := Empty

/-- The `Direction` enum from the source: the direction of the H-Bridge. -/
inductive Direction
  | Forward
  | Reverse
deriving DecidableEq

/-- The `StopMode` enum from the source: `Brake` maps to Fast Motor Stop,
`Coast` to Free Running Motor Stop. -/
inductive StopMode
  | Brake
  | Coast
deriving DecidableEq

/-- The `Command` enum from the source: a command sent to a motor driver. -/
inductive Command
  | Drive (direction : Direction) (throttle : Nat)
  | Stop (mode : StopMode)
deriving DecidableEq

/-- One observable effect of the driver on its capabilities or on its own
`throttle` field: a write to a direction line, a duty-cycle write to the PWM
capability, or the store into `current_throttle`. -/
inductive Event
  | d1High
  | d1Low
  | d2High
  | d2Low
  | duty (value : Nat)
  | store (throttle : Nat)
deriving DecidableEq

/-- State of one driver instance together with the hardware it owns.
`dir1`/`dir2` are `none` while a line is still in its capability-default
state (never written), `some true` for high, `some false` for low.
`lastDuty` is the duty value last written to the PWM capability (`none`
before any write).  `maxDuty` is the PWM capability's native
`max_duty_cycle()` (a `u16`).  `throttle` is the driver's `current_throttle`
field.  `trace` is a ghost log of events, newest first. -/
structure DriverState where
  dir1 : Option Bool
  dir2 : Option Bool
  maxDuty : Nat
  lastDuty : Option Nat
  throttle : Nat
  trace : List Event
deriving DecidableEq

/-- Embeds `self.dir1.set_high()`. -/
def DriverState.dir1_set_high (s : DriverState) : Except Infallible DriverState :=
  .ok { s with dir1 := some true, trace := .d1High :: s.trace }

/-- Embeds `self.dir1.set_low()`. -/
def DriverState.dir1_set_low (s : DriverState) : Except Infallible DriverState :=
  .ok { s with dir1 := some false, trace := .d1Low :: s.trace }

/-- Embeds `self.dir2.set_high()`. -/
def DriverState.dir2_set_high (s : DriverState) : Except Infallible DriverState :=
  .ok { s with dir2 := some true, trace := .d2High :: s.trace }

/-- Embeds `self.dir2.set_low()`. -/
def DriverState.dir2_set_low (s : DriverState) : Except Infallible DriverState :=
  .ok { s with dir2 := some false, trace := .d2Low :: s.trace }

/-- Embeds `self.enable.set_duty_cycle(duty)`. -/
def DriverState.set_duty_cycle (s : DriverState) (duty : Nat) : Except Infallible DriverState :=
  .ok { s with lastDuty := some duty, trace := .duty duty :: s.trace }

/-- Embeds `fn duty_from_fullscale(&self, throttle: u16) -> u16`:
`((max * throttle + 0x8000) / 0xFFFF) as u16`, computed in `u32` after
casting `self.enable.max_duty_cycle()` and `throttle` from `u16`. -/
def DriverState.duty_from_fullscale (s : DriverState) (throttle : Nat) : Nat :=
  (s.maxDuty * throttle % 4294967296 + 32768) % 4294967296 / 65535 % 65536

/-- Embeds `fn set_throttle(&mut self, throttle: u16)`: stores `throttle` into
`self.throttle`, then computes the scaled duty and writes it to the PWM
capability. -/
def DriverState.set_throttle (s : DriverState) (throttle : Nat) :
    Except Infallible DriverState := do
  let s1 : DriverState := { s with throttle := throttle, trace := .store throttle :: s.trace }
  let duty := s1.duty_from_fullscale throttle
  let s2 ← s1.set_duty_cycle duty
  return s2

/-- Embeds `fn forward(&mut self)`: dir1 high, then dir2 low. -/
def DriverState.forward (s : DriverState) : Except Infallible DriverState := do
  let s1 ← s.dir1_set_high
  let s2 ← s1.dir2_set_low
  return s2

/-- Embeds `fn reverse(&mut self)`: dir1 low, then dir2 high. -/
def DriverState.reverse (s : DriverState) : Except Infallible DriverState := do
  let s1 ← s.dir1_set_low
  let s2 ← s1.dir2_set_high
  return s2

/-- Embeds `fn fast_motor_stop(&mut self)`: dir1 high, dir2 high, then
`set_throttle(u16::MAX)`. -/
def DriverState.fast_motor_stop (s : DriverState) : Except Infallible DriverState := do
  let s1 ← s.dir1_set_high
  let s2 ← s1.dir2_set_high
  let s3 ← s2.set_throttle 65535
  return s3

/-- Embeds `fn free_running_motor_stop(&mut self)`: `set_throttle(0)`. -/
def DriverState.free_running_motor_stop (s : DriverState) : Except Infallible DriverState := do
  let s1 ← s.set_throttle 0
  return s1

/-- Embeds `pub fn set(&mut self, cmd: Command)`: dispatch on the command. -/
def DriverState.set (s : DriverState) (cmd : Command) : Except Infallible DriverState := do
  match cmd with
  | .Drive direction throttle =>
    let s1 ← match direction with
      | .Forward => s.forward
      | .Reverse => s.reverse
    let s2 ← s1.set_throttle throttle
    return s2
  | .Stop stop_mode =>
    match stop_mode with
    | .Brake => s.fast_motor_stop
    | .Coast => s.free_running_motor_stop

/-- Embeds `pub fn get_throttle(&self) -> u16`. -/
def DriverState.get_throttle (s : DriverState) : Nat :=
  s.throttle

/-- Embeds `pub fn new(dir1: P1, dir2: P2, enable: EN) -> Result<Self, Infallible>`:
builds the handle with `throttle = 0` from the capabilities as given (the
direction lines keep whatever state they arrived in, `dir1` and `dir2` here),
then writes duty cycle `0` to the PWM capability. -/
def L298NHBridge.new (dir1 dir2 : Option Bool) (maxDuty : Nat) :
    Except Infallible DriverState := do
  let handle : DriverState :=
    { dir1 := dir1, dir2 := dir2, maxDuty := maxDuty,
      lastDuty := none, throttle := 0, trace := [] }
  let handle2 ← handle.set_duty_cycle 0
  return handle2

/-- A driver state is reachable when it arises from `new` followed by any
sequence of successful `set` calls. -/
inductive Reachable : DriverState → Prop
  | init (dir1 dir2 : Option Bool) (maxDuty : Nat) (s : DriverState) :
      L298NHBridge.new dir1 dir2 maxDuty = .ok s → Reachable s
  | step (s : DriverState) (cmd : Command) (s2 : DriverState) :
      Reachable s → s.set cmd = .ok s2 → Reachable s2

/-- Extract the value of a computation whose error type is `Infallible`:
no error value can exist. -/
def runInfallible {α : Type} : Except Infallible α → α
  | .ok a => a
  | .error e => e.elim

/-- Modelled from the spec: the event order that §4.1 and claim C6 assert for
a `Drive { Forward, t }` command, newest event first — the throttle store
happens last, after the duty write, which follows the two direction writes
(dir1 before dir2).  This follows the spec's wording, to be compared with the
trace the embedded code actually produces. -/
def specForwardDriveTrace (s : DriverState) (t : Nat) : List Event :=
  .store t :: .duty (s.duty_from_fullscale t) :: .d2Low :: .d1High :: s.trace

/-- A concrete driver state used to instantiate theorems: fresh pins, a PWM
capability whose native maximum duty is 1000. -/
def initialState : DriverState :=
  { dir1 := none, dir2 := none, maxDuty := 1000, lastDuty := none,
    throttle := 0, trace := [] }

/-- The state reached from `initialState` by `set (Drive { Forward, 32768 })`. -/
def afterForward : DriverState :=
  runInfallible (initialState.set (.Drive .Forward 32768))

/-- The state reached from `initialState` by `set (Drive { Reverse, 200 })`. -/
def afterReverse : DriverState :=
  runInfallible (initialState.set (.Drive .Reverse 200))

/-- The state reached from `initialState` by `set (Drive { Forward, 10000 })`. -/
def afterDrive10000 : DriverState :=
  runInfallible (initialState.set (.Drive .Forward 10000))

/-- The state reached from `afterDrive10000` by `set (Stop Brake)`. -/
def afterBrake : DriverState :=
  runInfallible (afterDrive10000.set (.Stop .Brake))

/-- The state reached from `afterForward` by `set (Stop Coast)`. -/
def afterCoast : DriverState :=
  runInfallible (afterForward.set (.Stop .Coast))

/-- The state produced by `L298NHBridge.new none none 1000`. -/
def newState : DriverState :=
  runInfallible (L298NHBridge.new none none 1000)

/-! ## Unfolding lemmas for the driver operations -/

/-- Computed form of `set (Drive Forward t)`: dir1 high, dir2 low, throttle
stored, then the scaled duty written. -/
theorem set_forward_eq (s : DriverState) (t : Nat) :
    s.set (.Drive .Forward t) =
      .ok { s with
            dir1 := some true, dir2 := some false, throttle := t,
            lastDuty := some (s.duty_from_fullscale t),
            trace := .duty (s.duty_from_fullscale t) :: .store t ::
              .d2Low :: .d1High :: s.trace } := rfl

/-- Computed form of `set (Drive Reverse t)`: dir1 low, dir2 high, throttle
stored, then the scaled duty written. -/
theorem set_reverse_eq (s : DriverState) (t : Nat) :
    s.set (.Drive .Reverse t) =
      .ok { s with
            dir1 := some false, dir2 := some true, throttle := t,
            lastDuty := some (s.duty_from_fullscale t),
            trace := .duty (s.duty_from_fullscale t) :: .store t ::
              .d2High :: .d1Low :: s.trace } := rfl

/-- Computed form of `set (Stop Brake)`: both direction lines high, then
`set_throttle 65535`. -/
theorem set_brake_eq (s : DriverState) :
    s.set (.Stop .Brake) =
      .ok { s with
            dir1 := some true, dir2 := some true, throttle := 65535,
            lastDuty := some (s.duty_from_fullscale 65535),
            trace := .duty (s.duty_from_fullscale 65535) :: .store 65535 ::
              .d2High :: .d1High :: s.trace } := rfl

/-- Computed form of `set (Stop Coast)`: only `set_throttle 0`; the direction
fields are untouched. -/
theorem set_coast_eq (s : DriverState) :
    s.set (.Stop .Coast) =
      .ok { s with
            throttle := 0,
            lastDuty := some (s.duty_from_fullscale 0),
            trace := .duty (s.duty_from_fullscale 0) :: .store 0 :: s.trace } := rfl

/-- Computed form of `new`: the handle starts with `throttle = 0`, the direction
lines as supplied, and a single zero duty write. -/
theorem new_eq (d1 d2 : Option Bool) (m : Nat) :
    L298NHBridge.new d1 d2 m =
      .ok { dir1 := d1, dir2 := d2, maxDuty := m, lastDuty := some 0,
            throttle := 0, trace := [.duty 0] } := rfl

/-! ## Arithmetic of `duty_from_fullscale` -/

/-- With `max` and `throttle` in `u16` range, none of the `u32` reductions or
the final `u16` cast in `duty_from_fullscale` truncates anything: the result
is the pure integer `(max * t + 32768) / 65535`. -/
theorem duty_from_fullscale_exact (s : DriverState) (hm : s.maxDuty < 65536)
    (t : Nat) (ht : t < 65536) :
    s.duty_from_fullscale t = (s.maxDuty * t + 32768) / 65535 := by
  have h1 : s.maxDuty * t ≤ 65535 * 65535 :=
    Nat.mul_le_mul (by omega) (by omega)
  have h2 : s.maxDuty * t % 4294967296 = s.maxDuty * t :=
    Nat.mod_eq_of_lt (by omega)
  have h3 : (s.maxDuty * t + 32768) % 4294967296 = s.maxDuty * t + 32768 :=
    Nat.mod_eq_of_lt (by omega)
  have h4 : (s.maxDuty * t + 32768) / 65535 < 65536 := by
    rw [Nat.div_lt_iff_lt_mul (by norm_num : 0 < 65535)]
    omega
  rw [DriverState.duty_from_fullscale, h2, h3, Nat.mod_eq_of_lt h4]

/-- The scaled duty never exceeds the native maximum. -/
theorem duty_quotient_le_max (m t : Nat) (ht : t < 65536) :
    (m * t + 32768) / 65535 ≤ m := by
  have h1 : m * t ≤ m * 65535 := Nat.mul_le_mul_left m (by omega)
  have h2 := (Nat.div_lt_iff_lt_mul (by norm_num : 0 < 65535)).mpr
    (show m * t + 32768 < (m + 1) * 65535 by nlinarith)
  omega

/-- Zero throttle always scales to zero duty, whatever the native maximum. -/
theorem duty_from_fullscale_zero (s : DriverState) :
    s.duty_from_fullscale 0 = 0 := by
  simp [DriverState.duty_from_fullscale]

/-- Full throttle scales exactly to the native maximum duty. -/
theorem duty_from_fullscale_max (s : DriverState) (hm : s.maxDuty < 65536) :
    s.duty_from_fullscale 65535 = s.maxDuty := by
  rw [duty_from_fullscale_exact s hm 65535 (by norm_num), Nat.mul_comm,
    Nat.mul_add_div (by norm_num : 0 < 65535),
    Nat.div_eq_of_lt (by norm_num : (32768 : Nat) < 65535), Nat.add_zero]

/-! ## Claims -/

/-- C1: for every u16 native maximum duty and every u16 throttle `t`,
`duty_from_fullscale t` equals `floor ((max * t + 32768) / 65535)`; in
particular it maps `0` to `0` and `65535` to `max`, and it is monotone
non-decreasing in `t`. -/
theorem c1_duty_formula (s : DriverState) (hm : s.maxDuty < 65536) :
    (∀ t, t < 65536 →
      s.duty_from_fullscale t = (s.maxDuty * t + 32768) / 65535)
    ∧ s.duty_from_fullscale 0 = 0
    ∧ s.duty_from_fullscale 65535 = s.maxDuty
    ∧ (∀ t u, t ≤ u → u < 65536 →
        s.duty_from_fullscale t ≤ s.duty_from_fullscale u) := by
  refine ⟨fun t ht => duty_from_fullscale_exact s hm t ht,
    duty_from_fullscale_zero s, duty_from_fullscale_max s hm,
    fun t u htu hu => ?_⟩
  rw [duty_from_fullscale_exact s hm t (by omega),
    duty_from_fullscale_exact s hm u hu]
  exact Nat.div_le_div_right (Nat.add_le_add_right (Nat.mul_le_mul_left _ htu) _)

/-- C1 witness: the scaling properties at the concrete maximum duty 1000. -/
theorem c1_duty_formula_inst :
    initialState.maxDuty < 65536 ∧
    ((∀ t, t < 65536 →
      initialState.duty_from_fullscale t = (initialState.maxDuty * t + 32768) / 65535)
    ∧ initialState.duty_from_fullscale 0 = 0
    ∧ initialState.duty_from_fullscale 65535 = initialState.maxDuty
    ∧ (∀ t u, t ≤ u → u < 65536 →
        initialState.duty_from_fullscale t ≤ initialState.duty_from_fullscale u)) :=
  ⟨by decide, c1_duty_formula initialState (by decide)⟩

/-- C2: a successful `set (Drive { Forward, t })` leaves dir1 high, dir2 low,
`get_throttle` returning `t` and the last PWM duty equal to
`duty_from_fullscale t`; a successful `set (Drive { Reverse, t })` leaves
dir1 low, dir2 high and `get_throttle` returning `t`. -/
theorem c2_drive_postcondition (s : DriverState) (t : Nat) :
    (∀ s2, s.set (.Drive .Forward t) = .ok s2 →
      s2.dir1 = some true ∧ s2.dir2 = some false ∧ s2.get_throttle = t
        ∧ s2.lastDuty = some (s.duty_from_fullscale t))
    ∧ (∀ s2, s.set (.Drive .Reverse t) = .ok s2 →
      s2.dir1 = some false ∧ s2.dir2 = some true ∧ s2.get_throttle = t) := by
  refine ⟨fun s2 h => ?_, fun s2 h => ?_⟩
  · rw [set_forward_eq] at h
    injection h with h
    subst h
    exact ⟨rfl, rfl, rfl, rfl⟩
  · rw [set_reverse_eq] at h
    injection h with h
    subst h
    exact ⟨rfl, rfl, rfl⟩

/-- C2 witness: Forward at throttle 32768 and Reverse at throttle 200 from a
concrete fresh state. -/
theorem c2_drive_postcondition_inst :
    initialState.set (.Drive .Forward 32768) = .ok afterForward
    ∧ initialState.set (.Drive .Reverse 200) = .ok afterReverse
    ∧ (afterForward.dir1 = some true ∧ afterForward.dir2 = some false
      ∧ afterForward.get_throttle = 32768
      ∧ afterForward.lastDuty = some (initialState.duty_from_fullscale 32768))
    ∧ (afterReverse.dir1 = some false ∧ afterReverse.dir2 = some true
      ∧ afterReverse.get_throttle = 200) :=
  ⟨rfl, rfl, (c2_drive_postcondition initialState 32768).1 afterForward rfl,
    (c2_drive_postcondition initialState 200).2 afterReverse rfl⟩

/-- C3: a successful `set (Stop Brake)` leaves both direction lines high,
the last PWM duty equal to `duty_from_fullscale 65535` (which is the native
maximum when `maxDuty` is a u16) and `get_throttle` returning 65535 — in
particular not the throttle of any preceding Drive command such as 10000. -/
theorem c3_brake_postcondition (s s2 : DriverState)
    (h : s.set (.Stop .Brake) = .ok s2) :
    s2.dir1 = some true ∧ s2.dir2 = some true
    ∧ s2.lastDuty = some (s.duty_from_fullscale 65535)
    ∧ (s.maxDuty < 65536 → s2.lastDuty = some s.maxDuty)
    ∧ s2.get_throttle = 65535 ∧ s2.get_throttle ≠ 10000 := by
  rw [set_brake_eq] at h
  injection h with h
  subst h
  refine ⟨rfl, rfl, rfl, fun hm => ?_, rfl, ?_⟩
  · simp [duty_from_fullscale_max s hm]
  · show (65535 : Nat) ≠ 10000
    norm_num

/-- C3 witness: the spec's concrete scenario, `Drive { Forward, 10000 }` then
`Stop Brake`; afterwards `get_throttle` returns 65535, not 10000. -/
theorem c3_brake_postcondition_inst :
    afterDrive10000.set (.Stop .Brake) = .ok afterBrake
    ∧ (afterBrake.dir1 = some true ∧ afterBrake.dir2 = some true
    ∧ afterBrake.lastDuty = some (afterDrive10000.duty_from_fullscale 65535)
    ∧ (afterDrive10000.maxDuty < 65536 →
        afterBrake.lastDuty = some afterDrive10000.maxDuty)
    ∧ afterBrake.get_throttle = 65535 ∧ afterBrake.get_throttle ≠ 10000) :=
  ⟨rfl, c3_brake_postcondition afterDrive10000 afterBrake rfl⟩

/-- C4: a successful `set (Stop Coast)` writes duty 0, stores throttle 0, and
leaves both direction lines exactly as they were; the events it adds are the
throttle store and the duty write only — no direction-pin write. -/
theorem c4_coast_postcondition (s s2 : DriverState)
    (h : s.set (.Stop .Coast) = .ok s2) :
    s2.lastDuty = some 0 ∧ s2.get_throttle = 0
    ∧ s2.dir1 = s.dir1 ∧ s2.dir2 = s.dir2
    ∧ s2.trace = .duty 0 :: .store 0 :: s.trace := by
  rw [set_coast_eq] at h
  injection h with h
  subst h
  refine ⟨?_, rfl, rfl, rfl, ?_⟩ <;> simp [duty_from_fullscale_zero]

/-- C4 witness: coasting after a concrete Forward drive keeps dir1 high and
dir2 low while zeroing duty and throttle. -/
theorem c4_coast_postcondition_inst :
    afterForward.set (.Stop .Coast) = .ok afterCoast
    ∧ (afterCoast.lastDuty = some 0 ∧ afterCoast.get_throttle = 0
    ∧ afterCoast.dir1 = afterForward.dir1 ∧ afterCoast.dir2 = afterForward.dir2
    ∧ afterCoast.trace = .duty 0 :: .store 0 :: afterForward.trace) :=
  ⟨rfl, c4_coast_postcondition afterForward afterCoast rfl⟩

/-- C5: in every reachable driver state the duty last written to the PWM
capability is exactly `duty_from_fullscale` of `current_throttle`, including
the 65535 forced by `Stop Brake` and the initial zero write of `new`. -/
theorem c5_duty_invariant (s : DriverState) (h : Reachable s) :
    s.lastDuty = some (s.duty_from_fullscale s.throttle) := by
  induction h with
  | init d1 d2 m s0 hnew =>
    rw [new_eq] at hnew
    injection hnew with hnew
    subst hnew
    simp [duty_from_fullscale_zero]
  | step s0 cmd s2 hr hset ih =>
    cases cmd with
    | Drive direction throttle =>
      cases direction with
      | Forward =>
        rw [set_forward_eq] at hset
        injection hset with hset
        subst hset
        rfl
      | Reverse =>
        rw [set_reverse_eq] at hset
        injection hset with hset
        subst hset
        rfl
    | Stop mode =>
      cases mode with
      | Brake =>
        rw [set_brake_eq] at hset
        injection hset with hset
        subst hset
        rfl
      | Coast =>
        rw [set_coast_eq] at hset
        injection hset with hset
        subst hset
        rfl

/-- C5 witness: the invariant at the concrete state produced by `new`. -/
theorem c5_duty_invariant_inst :
    Reachable newState
    ∧ newState.lastDuty = some (newState.duty_from_fullscale newState.throttle) :=
  ⟨Reachable.init none none 1000 newState rfl,
    c5_duty_invariant newState (Reachable.init none none 1000 newState rfl)⟩

/-- C6 counterexample: the spec claims the scaled duty is written to the PWM
capability before `throttle` is stored into `current_throttle`; the code
stores the throttle first (`set_throttle` begins with `self.throttle =
throttle`).  At maximum duty 1000 and throttle 32768 the produced event
order differs from the spec's order. -/
theorem c6_spec_order_refuted :
    (runInfallible (initialState.set (.Drive .Forward 32768))).trace ≠
      specForwardDriveTrace initialState 32768 := by decide

/-- C6 as amended: a `Drive` command writes dir1 first, then dir2, then
stores the throttle into `current_throttle`, and then computes and writes the
scaled duty to the PWM capability (trace is newest first). -/
theorem c6_event_order (s : DriverState) (t : Nat) :
    (∀ s2, s.set (.Drive .Forward t) = .ok s2 →
      s2.trace = .duty (s.duty_from_fullscale t) :: .store t ::
        .d2Low :: .d1High :: s.trace)
    ∧ (∀ s2, s.set (.Drive .Reverse t) = .ok s2 →
      s2.trace = .duty (s.duty_from_fullscale t) :: .store t ::
        .d2High :: .d1Low :: s.trace) := by
  refine ⟨fun s2 h => ?_, fun s2 h => ?_⟩
  · rw [set_forward_eq] at h
    injection h with h
    subst h
    rfl
  · rw [set_reverse_eq] at h
    injection h with h
    subst h
    rfl

/-- C6 witness: the amended event order at a concrete Forward drive. -/
theorem c6_event_order_inst :
    initialState.set (.Drive .Forward 32768) = .ok afterForward
    ∧ afterForward.trace = .duty (initialState.duty_from_fullscale 32768) ::
        .store 32768 :: .d2Low :: .d1High :: initialState.trace :=
  ⟨rfl, (c6_event_order initialState 32768).1 afterForward rfl⟩

/-- C7: all three capabilities are constrained to `Error = Infallible`, so
`new` succeeds exactly as often as the underlying zero-duty write does (both
always), `set` always succeeds, every underlying write trivially surfaces its
(nonexistent) failure, and no error value exists at all. -/
theorem c7_error_propagation :
    (∀ (d1 d2 : Option Bool) (m : Nat),
      (L298NHBridge.new d1 d2 m).isOk = true
      ∧ (L298NHBridge.new d1 d2 m).isOk =
          (DriverState.set_duty_cycle
            { dir1 := d1, dir2 := d2, maxDuty := m, lastDuty := none,
              throttle := 0, trace := [] } 0).isOk)
    ∧ (∀ (s : DriverState) (cmd : Command), (s.set cmd).isOk = true)
    ∧ (∀ s : DriverState,
        s.dir1_set_high.isOk = true ∧ s.dir2_set_high.isOk = true
        ∧ s.dir1_set_low.isOk = true ∧ s.dir2_set_low.isOk = true)
    ∧ (∀ (s : DriverState) (d : Nat), (s.set_duty_cycle d).isOk = true)
    ∧ (∀ e : Infallible, False) := by
  refine ⟨fun d1 d2 m => ⟨rfl, rfl⟩, fun s cmd => ?_,
    fun s => ⟨rfl, rfl, rfl, rfl⟩, fun s d => rfl, fun e => e.elim⟩
  cases cmd with
  | Drive direction throttle => cases direction <;> rfl
  | Stop mode => cases mode <;> rfl

/-- C8: right after a successful `new`, the PWM duty last written is 0, the
whole trace is that single zero-duty write (so neither direction line was
written), and both direction lines still hold their capability-default
state. -/
theorem c8_new_postcondition (d1 d2 : Option Bool) (m : Nat) (s : DriverState)
    (h : L298NHBridge.new d1 d2 m = .ok s) :
    s.lastDuty = some 0 ∧ s.dir1 = d1 ∧ s.dir2 = d2 ∧ s.trace = [.duty 0] := by
  rw [new_eq] at h
  injection h with h
  subst h
  exact ⟨rfl, rfl, rfl, rfl⟩

/-- C8 witness: `new` on fresh pins with maximum duty 1000. -/
theorem c8_new_postcondition_inst :
    L298NHBridge.new none none 1000 = .ok newState
    ∧ (newState.lastDuty = some 0 ∧ newState.dir1 = none ∧ newState.dir2 = none
      ∧ newState.trace = [.duty 0]) :=
  ⟨rfl, c8_new_postcondition none none 1000 newState rfl⟩

/-- C9: for a positive u16 native maximum duty and a u16 throttle, the scaled
duty is within 1 of the exact rational scaling `max * t / 65535`. -/
theorem c9_rounding_bound (s : DriverState) (hm : s.maxDuty < 65536)
    (hm0 : 0 < s.maxDuty) (t : Nat) (ht : t < 65536) :
    |(s.duty_from_fullscale t : ℚ) - (s.maxDuty : ℚ) * (t : ℚ) / 65535| ≤ 1 := by
  rw [duty_from_fullscale_exact s hm t ht]
  set d := (s.maxDuty * t + 32768) / 65535 with hd
  have hdm := Nat.div_add_mod (s.maxDuty * t + 32768) 65535
  have hmod := Nat.mod_lt (s.maxDuty * t + 32768) (show 0 < 65535 by norm_num)
  have hub : s.maxDuty * t + 32768 < 65535 * d + 65535 := by omega
  have hlb : 65535 * d ≤ s.maxDuty * t + 32768 := by omega
  have hubQ : (s.maxDuty : ℚ) * t + 32768 < 65535 * (d : ℚ) + 65535 := by
    exact_mod_cast hub
  have hlbQ : (65535 : ℚ) * (d : ℚ) ≤ (s.maxDuty : ℚ) * t + 32768 := by
    exact_mod_cast hlb
  have key : (d : ℚ) - (s.maxDuty : ℚ) * (t : ℚ) / 65535 =
      (65535 * (d : ℚ) - (s.maxDuty : ℚ) * (t : ℚ)) / 65535 := by
    field_simp
    ring
  rw [key, abs_le]
  constructor
  · rw [le_div_iff (show (0 : ℚ) < 65535 by norm_num)]
    linarith
  · rw [div_le_one (show (0 : ℚ) < 65535 by norm_num)]
    linarith

/-- C9 witness: the rounding bound at maximum duty 1000 and throttle 32768. -/
theorem c9_rounding_bound_inst :
    initialState.maxDuty < 65536 ∧ 0 < initialState.maxDuty ∧ (32768 : Nat) < 65536
    ∧ |(initialState.duty_from_fullscale 32768 : ℚ)
        - (initialState.maxDuty : ℚ) * (32768 : ℚ) / 65535| ≤ 1 :=
  ⟨by decide, by decide, by decide,
    c9_rounding_bound initialState (by decide) (by decide) 32768 (by decide)⟩

/-- C10: with `max` and `t` in u16 range the intermediate u32 value
`max * t + 0x8000` cannot wrap (it stays below 2^32), the quotient stays at
or below `max` (hence below 2^16, so the u16 cast is lossless), and
`duty_from_fullscale` computes the exact integer `(max * t + 32768) / 65535`. -/
theorem c10_no_overflow (s : DriverState) (hm : s.maxDuty < 65536)
    (t : Nat) (ht : t < 65536) :
    s.maxDuty * t + 32768 ≤ 4294967295
    ∧ (s.maxDuty * t + 32768) / 65535 ≤ s.maxDuty
    ∧ (s.maxDuty * t + 32768) / 65535 < 65536
    ∧ s.duty_from_fullscale t = (s.maxDuty * t + 32768) / 65535 := by
  have h1 : s.maxDuty * t ≤ 65535 * 65535 :=
    Nat.mul_le_mul (by omega) (by omega)
  have h2 := duty_quotient_le_max s.maxDuty t ht
  exact ⟨by omega, h2, by omega, duty_from_fullscale_exact s hm t ht⟩

/-- C10 witness: no wraparound at maximum duty 1000 and throttle 32768. -/
theorem c10_no_overflow_inst :
    initialState.maxDuty < 65536 ∧ (32768 : Nat) < 65536
    ∧ (initialState.maxDuty * 32768 + 32768 ≤ 4294967295
      ∧ (initialState.maxDuty * 32768 + 32768) / 65535 ≤ initialState.maxDuty
      ∧ (initialState.maxDuty * 32768 + 32768) / 65535 < 65536
      ∧ initialState.duty_from_fullscale 32768 =
          (initialState.maxDuty * 32768 + 32768) / 65535) :=
  ⟨by decide, by decide, c10_no_overflow initialState (by decide) 32768 (by decide)⟩
